import Mathlib

/-!
Verification of the Transaction Ledger & Invoice Subsystem of VyapariBot.

This file gives a shallow embedding, in Lean 4, of the deterministic core of
the repository (src/tools_util.py, src/app.py):

* the GST tax decomposition of generate_invoice (tools_util.py:608-626);
* the transaction ledger operations write_transaction (tools_util.py:287-317),
  update_user_data (tools_util.py:187-229), write_user, read_user;
* the tool-call handler handle_invoice_request (app.py:593-712);
* the deletion-wizard callback handler handle_delete_callback and its
  keyboard builders (app.py:270-457);
* the day-range invoice lookup day_range / get_invoice_numbers
  (app.py:351-369);
* the sliding-window rate limiter (app.py:54-85).

Python floats are modelled as exact rationals, machine timestamps as
integers (epoch seconds) or rationals, the two Supabase tables as lists of
records, and exceptions as Option results.  Strings are Lean strings
(Python slices s[:n] slice by code points, modelled by pyslice).
-/

namespace Vyapari

/-! ## Data model: the two persisted tables -/

/-- One row of the `vyapari_transactions` table, exactly the payload built by
`write_transaction` (tools_util.py:294-310).  `invoice_date` and
`inserted_at` are timestamptz values, modelled as epoch seconds (UTC). -/
structure Transaction where
  chat_id : String
  item_name : String
  quantity : Int
  price_per_unit : Rat
  total_price_including_tax : Rat
  tax_amount : Rat
  tax_rate : Rat
  raw_message : Option String
  payment_method : String
  currency : String
  inserted_at : Int
  invoice_date : Int
  invoice_number : String
  customer_name : String
  customer_details : String
deriving DecidableEq

/-- One row of the `vyapari_user` table, restricted to the fields written by
`write_user` (tools_util.py:127-137) and mutated by `update_user_data`
(tools_util.py:206-223).  Presentation-only fields (phone, language,
company_details) play no part in the claims and are omitted. -/
structure UserRow where
  chat_id : String
  registered_on : String
  last_updated : String
  user_name : String
  subscription_tier : String
  plan_start : String
  plan_end : String
  total_transactions : Int
  total_revenue : Rat
deriving DecidableEq

/-- The persistent store: both tables.  Row order of `transactions` is
insertion order. -/
structure DB where
  transactions : List Transaction
  users : List UserRow
deriving DecidableEq

/-- The wall-clock values read by the ledger code paths
(datetime.utcnow / date.today / datetime.now(timezone.utc)), passed
explicitly so the embedding is pure. -/
structure Clock where
  now_ts : String
  today : String
  utc_iso : Int
  ym : String
  ddhhmm : String
deriving DecidableEq

/-! ## User-table operations (tools_util.py) -/

/-- `read_user` (tools_util.py:155-169): first row of `vyapari_user` whose
chat_id column equals str(chat_id), or None. -/
def read_user (db : DB) (chat_id : Int) : Option UserRow :=
  db.users.find? (fun u => u.chat_id == toString chat_id)

/-- `write_user` (tools_util.py:111-149): upsert keyed on chat_id with the
default payload.  plan_end is the fixed date(2026, 1, 31). -/
def write_user (db : DB) (clock : Clock) (chat_id : Int) (user_name : String) : DB :=
  let payload : UserRow :=
    { chat_id := toString chat_id
      registered_on := clock.now_ts
      last_updated := clock.now_ts
      user_name := user_name
      subscription_tier := "Free"
      plan_start := clock.today
      plan_end := "2026-01-31"
      total_transactions := 0
      total_revenue := 0 }
  if db.users.any (fun u => u.chat_id == toString chat_id) then
    { db with users := db.users.map (fun u => if u.chat_id == toString chat_id then payload else u) }
  else
    { db with users := db.users ++ [payload] }

/-- `update_user_data` (tools_util.py:187-229): read the user (creating it
with defaults first when absent), then persist
total_transactions + 1 and total_revenue + transaction_amount. -/
def update_user_data (db : DB) (clock : Clock) (chat_id : Int) (transaction_amount : Rat) : DB :=
  let r0 := read_user db chat_id
  let step : DB × Option UserRow :=
    match r0 with
    | some u => (db, some u)
    | none =>
      let dbw := write_user db clock chat_id ""
      (dbw, read_user dbw chat_id)
  let new_txn_count := ((step.2.map (·.total_transactions)).getD 0) + 1
  let new_revenue := ((step.2.map (·.total_revenue)).getD 0) + transaction_amount
  { step.1 with
    users := step.1.users.map (fun u =>
      if u.chat_id == toString chat_id then
        { u with
          total_transactions := new_txn_count
          total_revenue := new_revenue
          last_updated := clock.now_ts }
      else u) }

/-! ## write_transaction (tools_util.py:287-317) -/

/-- The arguments of `write_transaction`, with the source defaults. -/
structure WriteTxArgs where
  chat_id : Int
  item_name : String
  quantity : Int
  price_per_unit : Rat
  tax_rate : Rat
  invoice_date : Int
  invoice_number : String
  raw_message : Option String := none
  payment_method : String := "cash"
  currency : String := "INR"
  customer_name : String := ""
  customer_details : String := ""
deriving DecidableEq

/-- The row payload built at tools_util.py:294-310.  The yyyy-MM-dd input
string is parsed by datetime.fromisoformat; here `invoice_date` is already
the parsed timestamp. -/
def tx_row (clock : Clock) (a : WriteTxArgs) : Transaction :=
  { chat_id := toString a.chat_id
    item_name := a.item_name
    quantity := a.quantity
    price_per_unit := a.price_per_unit
    total_price_including_tax := a.price_per_unit * a.quantity
    tax_amount := a.tax_rate * a.price_per_unit * a.quantity / 100
    tax_rate := a.tax_rate
    raw_message := a.raw_message
    payment_method := a.payment_method
    currency := a.currency
    inserted_at := clock.utc_iso
    invoice_date := a.invoice_date
    invoice_number := a.invoice_number
    customer_name := a.customer_name
    customer_details := a.customer_details }

/-- The value of the name `total_price` at tools_util.py:312.  No binding
`total_price = ...` exists anywhere in tools_util.py (the insert payload
computes `price_per_unit*quantity` inline under the key
total_price_including_tax, but never binds a variable), so evaluating the
call `update_user_data(chat_id, total_price)` raises NameError. -/
def total_price_var : Option Rat := none

/-- `write_transaction` (tools_util.py:287-317): insert the row, then call
`update_user_data(chat_id, total_price)`.  Because `total_price` is an
unbound name (see `total_price_var`), that line raises NameError, the
enclosing `except` catches it, and the function returns None — after the
insert has already been committed.  Result: the new store paired with the
returned value (None on the actual path). -/
def write_transaction (db : DB) (clock : Clock) (a : WriteTxArgs) : DB × Option Transaction :=
  let row := tx_row clock a
  let db1 := { db with transactions := db.transactions ++ [row] }
  match total_price_var with
  | none => (db1, none)
  | some tp => (update_user_data db1 clock a.chat_id tp, some row)

/-- A sequence of `write_transaction` calls sharing one store, as performed
once per line item by the invoice path. -/
def write_transaction_seq (clock : Clock) (db : DB) : List WriteTxArgs → DB
  | [] => db
  | a :: rest => write_transaction_seq clock (write_transaction db clock a).1 rest

/-! ## Tax engine (generate_invoice, tools_util.py:608-626) -/

/-- `tax_factor = 1 + tax_pct/100.0` where `tax_pct = cgst + sgst + igst`
(tools_util.py:609-610). -/
def tax_factor (cgst_rate sgst_rate igst_rate : Rat) : Rat :=
  1 + (cgst_rate + sgst_rate + igst_rate) / 100

/-- One parallel item of the invoice request (app.py:649-652). -/
structure InvItem where
  name : String
  qty : Int
  rate : Rat
  discount : Rat
deriving DecidableEq

/-- The per-line values computed inside the items loop
(tools_util.py:612-620). -/
structure LineCalc where
  name : String
  qty : Int
  base_rate : Rat
  cgst_amt : Rat
  sgst_amt : Rat
  igst_amt : Rat
  base_total : Rat
  gross_total : Rat
deriving DecidableEq

/-- The body of the items loop (tools_util.py:612-620): the GST-inclusive
rate is divided by the tax factor to obtain the ex-tax base rate, and the
three tax amounts, base total and gross total are derived from it. -/
def line_calc (cgst_rate sgst_rate igst_rate : Rat) (row : InvItem) : LineCalc :=
  let gross_rate := row.rate
  let qty := row.qty
  let base_rate := gross_rate / tax_factor cgst_rate sgst_rate igst_rate
  { name := row.name
    qty := qty
    base_rate := base_rate
    cgst_amt := base_rate * cgst_rate / 100 * qty
    sgst_amt := base_rate * sgst_rate / 100 * qty
    igst_amt := base_rate * igst_rate / 100 * qty
    base_total := base_rate * qty
    gross_total := gross_rate * qty }

/-- All line computations of one invoice document. -/
def invoice_lines (cgst_rate sgst_rate igst_rate : Rat) (items : List InvItem) : List LineCalc :=
  items.map (line_calc cgst_rate sgst_rate igst_rate)

/-- The generated invoice-number scheme (tools_util.py:534-538):
INV_{chat_id}/{yyyy-mm}/{ddHHMM} from the UTC clock. -/
def generated_invoice_number (chat_id : Int) (clock : Clock) : String :=
  "INV_" ++ toString chat_id ++ "/" ++ clock.ym ++ "/" ++ clock.ddhhmm

/-- `generate_invoice` (tools_util.py:508-713), restricted to its
computational content: the per-line tax decomposition and the invoice
number (generated when none is supplied).  PDF layout is rendering only. -/
def generate_invoice (chat_id : Int) (items : List InvItem) (clock : Clock)
    (invoice_number : Option String) (cgst_rate sgst_rate igst_rate : Rat) :
    List LineCalc × String :=
  let inv := match invoice_number with
    | some s => s
    | none => generated_invoice_number chat_id clock
  (invoice_lines cgst_rate sgst_rate igst_rate items, inv)

/-! ## handle_invoice_request (app.py:593-712) -/

/-- The tool-call arguments of `handle_invoice_request` (app.py:594-624).
`date` is the calendar date argument, modelled as the epoch seconds of its
midnight (the string yyyy-MM-dd is parsed by fromisoformat downstream).
The company/customer address fields flow only into the PDF body and are
omitted; the fields below are the ones that reach validation and the
ledger. -/
structure InvReq where
  chat_id : Int
  item_names : List String
  quantities : List Int
  prices : List Rat
  discounts : List Rat
  date : Int
  raw_message : String
  payment_method : String := "cash"
  customer_name : String := "Customer Name"
  customer_details : String := ""
  cgst_rate : Rat := 0
  sgst_rate : Rat := 0
  igst_rate : Rat := 0
deriving DecidableEq

/-- Python str.strip() whitespace (the ASCII whitespace classes). -/
def is_py_space (c : Char) : Bool :=
  c == ' ' || c == '\t' || c == '\n' || c == '\r' || c == '\x0b' || c == '\x0c'

/-- Python s.strip(): drop leading and trailing whitespace. -/
def py_strip (s : String) : String :=
  String.mk (((s.data.dropWhile is_py_space).reverse.dropWhile is_py_space).reverse)

/-- The per-position validation loop (app.py:640-646) over
enumerate(zip(item_names, quantities, prices)): empty (stripped) name,
non-positive quantity, non-positive price are each rejected with a message
naming position i+1.  Returns the first error message, if any. -/
def validate_items : Nat → List (String × Int × Rat) → Option String
  | _, [] => none
  | i, (name, qty, price) :: rest =>
    if py_strip name == "" then some ("❌ Invalid item name at position " ++ toString (i + 1))
    else if qty ≤ 0 then some ("❌ Invalid quantity at position " ++ toString (i + 1))
    else if price ≤ 0 then some ("❌ Invalid price at position " ++ toString (i + 1))
    else validate_items (i + 1) rest

/-- The items construction (app.py:649-652):
zip(item_names, quantities, prices, discounts).  Python zip stops at the
shortest input list. -/
def build_items : List String → List Int → List Rat → List Rat → List InvItem
  | n :: ns, q :: qs, p :: ps, d :: ds =>
    ⟨n, q, p, d⟩ :: build_items ns qs ps ds
  | _, _, _, _ => []

/-- The parameter names of `write_transaction` (tools_util.py:287). -/
def write_transaction_params : List String :=
  ["chat_id", "item_name", "quantity", "price_per_unit", "tax_rate",
   "invoice_date", "invoice_number", "raw_message", "payment_method",
   "currency", "customer_name", "customer_details"]

/-- The keyword arguments used at the call site inside the per-item loop of
`handle_invoice_request` (app.py:693-707). -/
def invoice_loop_call_kwargs : List String :=
  ["chat_id", "item_name", "quantity", "price_per_unit", "tax_rate",
   "invoice_date", "invoice_number", "discount_per_unit", "raw_message",
   "payment_method", "currency", "customer_name", "customer_details"]

/-- Whether the call at app.py:693-707 binds against the signature at
tools_util.py:287.  It does not: `discount_per_unit` is not a parameter of
`write_transaction`, so in Python the call raises TypeError (unexpected
keyword argument) before the callee body runs. -/
def invoice_write_call_binds : Bool :=
  invoice_loop_call_kwargs.all (fun k => write_transaction_params.contains k)

/-- The per-item ledger loop (app.py:691-707) as it would run if the call
bound: one `write_transaction` per item, each outcome recorded as
`true` iff the call returned data (it never does, see
`total_price_var`). -/
def write_items_loop (clock : Clock) (r : InvReq) (blended_tax_rate : Rat)
    (invoice_number : String) : DB → List InvItem → DB × List Bool
  | db, [] => (db, [])
  | db, itm :: rest =>
    let res := write_transaction db clock
      { chat_id := r.chat_id
        item_name := itm.name
        quantity := itm.qty
        price_per_unit := itm.rate
        tax_rate := blended_tax_rate
        invoice_date := r.date
        invoice_number := invoice_number
        raw_message := some r.raw_message
        payment_method := r.payment_method
        currency := "INR"
        customer_name := r.customer_name
        customer_details := r.customer_details }
    let next := write_items_loop clock r blended_tax_rate invoice_number res.1 rest
    (next.1, res.2.isSome :: next.2)

def success_reply (invoice_number : String) : String :=
  "✅ Invoice generated and recorded successfully! Invoice number is " ++ invoice_number

def err_missing_fields : String := "❌ Missing required fields for invoice generation."

def err_unequal_length : String := "❌ Item lists must have equal length."

def err_internal : String := "❌ Sorry, there was an error generating the invoice. Please try again."

/-- What one `handle_invoice_request` call produced: the reply string
returned to the tool caller, the invoice line items of the generated
document, the outcome of each completed `write_transaction` call
(false = call raised or returned None), and the resulting store. -/
structure InvResult where
  reply : String
  lines : List LineCalc
  outcomes : List Bool
  db : DB
deriving DecidableEq

/-- `handle_invoice_request` (app.py:631-712).  Validation first
(`not all([...])` is Python list truthiness, i.e. an emptiness test; then
the three-way length equality; then the per-position loop).  On the
validated path the items are zip-built, the document computed, and the
per-item ledger loop entered.  Because the loop call does not bind
(`invoice_write_call_binds` = false), its first iteration raises TypeError,
the enclosing `except Exception` catches it, and the generic internal-error
reply is returned with the store untouched.  With zero items the loop body
never runs and the success reply is returned. -/
def handle_invoice_request (db : DB) (clock : Clock) (r : InvReq) : InvResult :=
  if r.item_names.isEmpty || r.quantities.isEmpty || r.prices.isEmpty then
    ⟨err_missing_fields, [], [], db⟩
  else if r.item_names.length == r.quantities.length && r.quantities.length == r.prices.length then
    match validate_items 0 (r.item_names.zip (r.quantities.zip r.prices)) with
    | some msg => ⟨msg, [], [], db⟩
    | none =>
      let items := build_items r.item_names r.quantities r.prices r.discounts
      let gen := generate_invoice r.chat_id items clock none r.cgst_rate r.sgst_rate r.igst_rate
      let blended_tax_rate := r.cgst_rate + r.sgst_rate + r.igst_rate
      if items.isEmpty then
        ⟨success_reply gen.2, gen.1, [], db⟩
      else if invoice_write_call_binds then
        let looped := write_items_loop clock r blended_tax_rate gen.2 db items
        ⟨success_reply gen.2, gen.1, looped.2, looped.1⟩
      else
        ⟨err_internal, gen.1, [false], db⟩
  else
    ⟨err_unequal_length, [], [], db⟩

/-! ## Python sorted(set(...)) -/

/-- Insert into a list sorted by `le`. -/
def ins_sorted {α : Type} (le : α → α → Bool) (x : α) : List α → List α
  | [] => [x]
  | y :: ys => if le x y then x :: y :: ys else y :: ins_sorted le x ys

/-- Insertion sort by `le`. -/
def sort_by {α : Type} (le : α → α → Bool) (l : List α) : List α :=
  l.foldr (ins_sorted le) []

/-- Python `sorted(set(l))` under comparator `le`: distinct elements in
`le` order. -/
def py_sorted_set {α : Type} [DecidableEq α] (le : α → α → Bool) (l : List α) : List α :=
  sort_by le l.dedup

def str_le : String → String → Bool := fun a b => decide (a ≤ b)

def int_ge : Int → Int → Bool := fun a b => decide (b ≤ a)

/-! ## Day-range invoice lookup (app.py:351-369) -/

/-- `day_range` (app.py:351-356): from the date_iso string it builds the two
timestamp strings "D 00:00:00+00" and "D 23:59:59+00" where D =
date_iso[:10].  Timestamps are modelled as epoch seconds under the fixed
+00 offset, so the argument is the epoch value `day0` of D 00:00:00+00 and
the end bound "D 23:59:59+00" is `day0 + 86399`. -/
def day_range (day0 : Int) : Int × Int :=
  (day0, day0 + 86399)

/-- `get_invoice_numbers` (app.py:358-369): rows of the account with
start ≤ invoice_date (gte) and invoice_date < end (lt), then Python
`sorted({...})` over their invoice numbers. -/
def get_invoice_numbers (db : DB) (chat_id : Int) (day0 : Int) : List String :=
  let bounds := day_range day0
  py_sorted_set str_le
    ((db.transactions.filter (fun r =>
      r.chat_id == toString chat_id &&
      decide (bounds.1 ≤ r.invoice_date) &&
      decide (r.invoice_date < bounds.2))).map (·.invoice_number))

/-- Modelled from the spec: the lookup the specification describes —
distinct invoice numbers whose invoice_date falls within
[date 00:00:00, date+1day), i.e. the full half-open day
[day0, day0 + 86400). -/
def spec_invoice_numbers (db : DB) (chat_id : Int) (day0 : Int) : List String :=
  py_sorted_set str_le
    ((db.transactions.filter (fun r =>
      r.chat_id == toString chat_id &&
      decide (day0 ≤ r.invoice_date) &&
      decide (r.invoice_date < day0 + 86400))).map (·.invoice_number))

/-- `get_item_names` (app.py:371-380): sorted distinct item names of the
rows of one account under one invoice number. -/
def get_item_names (db : DB) (chat_id : Int) (inv : String) : List String :=
  py_sorted_set str_le
    ((db.transactions.filter (fun r =>
      r.chat_id == toString chat_id && r.invoice_number == inv)).map (·.item_name))

/-- `get_recent_dates` (app.py:298-309): the newest `lim` rows by
invoice_date for the account, then Python
`sorted({...}, reverse=True)[:lim]`. -/
def get_recent_dates (db : DB) (chat_id : Int) (lim : Nat) : List Int :=
  let fetched := (sort_by int_ge
    ((db.transactions.filter (fun r => r.chat_id == toString chat_id)).map
      (·.invoice_date))).take lim
  (py_sorted_set int_ge fetched).take lim

/-! ## Deletion wizard (app.py:270, 382-495) -/

/-- Modelled from the spec: `delete_transaction` is invoked by the wizard
(app.py:449) but its definition is not among the source files.  Spec §4.3:
it removes the row(s) matching (accountId, invoiceNumber, itemName) and
returns whether any row was removed. -/
def delete_transaction (db : DB) (chat_id : Int) (inv : String) (item : String) : DB × Bool :=
  let keep := db.transactions.filter (fun r =>
    !(r.chat_id == toString chat_id && r.invoice_number == inv && r.item_name == item))
  ({ db with transactions := keep }, decide (keep.length ≠ db.transactions.length))

/-- The mutable per-process wizard state: the ledger store plus
`PENDING_SEARCH` (app.py:270), the set of chat ids whose next plain-text
message is consumed as an invoice-number search key. -/
structure BotState where
  pending_search : List Int
  db : DB
deriving DecidableEq

/-- set.add on the modelled PENDING_SEARCH. -/
def pending_add (l : List Int) (chat_id : Int) : List Int :=
  if chat_id ∈ l then l else l ++ [chat_id]

/-- set.discard on the modelled PENDING_SEARCH. -/
def pending_discard (l : List Int) (chat_id : Int) : List Int :=
  l.filter (fun x => !(x == chat_id))

/-- One step of `handle_delete_callback` (app.py:382-457) on the token
already split at the pipes (`action, *parts = cq["data"].split("|")`).
`iso_to_day` is the store-side interpretation of a date_iso token as the
epoch seconds of its day start (Postgres timestamptz comparison semantics,
external to the repository).  The result is the new state and the text the
handler edits into the message; branches that only re-render menus leave
the state unchanged, `del_search` records the chat in PENDING_SEARCH,
`del_item` deletes through the ledger, and an unknown action falls through
every branch and edits nothing. -/
def wizard_step (iso_to_day : String → Int) (st : BotState) (chat_id : Int)
    (tok : List String) : BotState × String :=
  let action := tok.headD ""
  let parts := tok.tail
  if action == "del_menu" then
    (st, "Select an option:")
  else if action == "del_recent" then
    if (get_recent_dates st.db chat_id 10).isEmpty then
      (st, "No recent invoices found.")
    else
      (st, "Select a date:")
  else if action == "del_search" then
    ({ st with pending_search := pending_add st.pending_search chat_id },
     "Please send the *exact* invoice number (or /cancel to abort).")
  else if action == "del_date" then
    if (get_invoice_numbers st.db chat_id (iso_to_day (parts.headD ""))).isEmpty then
      (st, "No invoices found for that date.")
    else
      (st, "Select invoice number:")
  else if action == "del_inv" then
    match parts with
    | [_, inv] =>
      if (get_item_names st.db chat_id inv).isEmpty then
        (st, "No items under that invoice.")
      else
        (st, "Select item to delete:")
    | _ => (st, "")
  else if action == "del_item" then
    match parts with
    | [inv, item] =>
      let res := delete_transaction st.db chat_id inv item
      ({ st with db := res.1 }, if res.2 then "✅ Deleted." else "❌ Nothing deleted.")
    | _ => (st, "")
  else if action == "del_cancel" then
    (st, "❌ Delete operation cancelled.")
  else
    (st, "")

/-- Python single-character split on a list of code points:
the fields between occurrences of `sep`. -/
def split_chars (sep : Char) : List Char → List (List Char)
  | [] => [[]]
  | c :: cs =>
    let rest := split_chars sep cs
    if c == sep then [] :: rest
    else
      match rest with
      | h :: t => (c :: h) :: t
      | [] => [[c]]

/-- Python s.split(sep) for a one-character separator. -/
def py_split (s : String) (sep : Char) : List String :=
  (split_chars sep s.data).map String.mk

/-- `handle_delete_callback` (app.py:382-457): split the callback token at
the pipes and dispatch. -/
def handle_delete_callback (iso_to_day : String → Int) (st : BotState)
    (chat_id : Int) (data : String) : BotState × String :=
  wizard_step iso_to_day st chat_id (py_split data '|')

/-! ## Rate limiter (app.py:54-85) -/

/-- The closure-level dict of the rate-limit dependency: chat_id to the
recorded admission timestamps (time.time() values, modelled as
rationals). -/
def RLState : Type := Int → List Rat

/-- One admission check (app.py:61-84).  A request without a chat id passes
untouched.  Otherwise the stored timestamps are pruned to those with
now - t < time_window, the pruned list is stored back, and the request is
rejected (HTTP 429, result false) when max_calls many remain, else `now`
is appended and the request admitted. -/
def rate_limiter_check (max_calls : Nat) (time_window : Rat) (st : RLState)
    (chat : Option Int) (now : Rat) : RLState × Bool :=
  match chat with
  | none => (st, true)
  | some chat_id =>
    let kept := (st chat_id).filter (fun t => decide (now - t < time_window))
    if max_calls ≤ kept.length then
      (fun j => if j = chat_id then kept else st j, false)
    else
      (fun j => if j = chat_id then kept ++ [now] else st j, true)

/-- A sequence of admission checks for one chat id: resulting state and
the per-check admission results. -/
def rl_run (max_calls : Nat) (time_window : Rat) (chat_id : Int) :
    RLState → List Rat → RLState × List Bool
  | st, [] => (st, [])
  | st, t :: ts =>
    let step := rate_limiter_check max_calls time_window st (some chat_id) t
    let rest := rl_run max_calls time_window chat_id step.1 ts
    (rest.1, step.2 :: rest.2)

/-! ## Callback keyboards (app.py:284-338) -/

/-- Python s[:n]: slicing is by code points. -/
def pyslice (s : String) (n : Nat) : String :=
  String.mk (s.data.take n)

structure Button where
  text : String
  callback_data : String
deriving DecidableEq

/-- `make_cancel_btn` (app.py:284-288). -/
def make_cancel_btn (level : String) : List Button :=
  [⟨"❌ Cancel", "del_cancel|" ++ level⟩]

/-- `kb_for_dates` (app.py:290-296): one row per date, callback_data
del_date|{d} with the full date string; text shows only d[:10]. -/
def kb_for_dates (dates : List String) : List (List Button) :=
  (dates.map (fun d => [Button.mk (pyslice d 10) ("del_date|" ++ d)])) ++
    [make_cancel_btn "root"]

/-- `kb_for_invoices` (app.py:313-323): callback_data
del_inv|{date_iso[:10]}|{inv}, with no length enforcement. -/
def kb_for_invoices (inv_numbers : List String) (date_iso : String) : List (List Button) :=
  let date_short := pyslice date_iso 10
  (inv_numbers.map (fun inv =>
    [Button.mk inv ("del_inv|" ++ date_short ++ "|" ++ inv)])) ++
    [make_cancel_btn "date"]

/-- `kb_for_items` (app.py:325-338): callback_data
(del_item|{inv}|{itm})[:64], sliced to 64 code points. -/
def kb_for_items (items : List String) (inv : String) : List (List Button) :=
  (items.map (fun itm =>
    [Button.mk itm (pyslice ("del_item|" ++ inv ++ "|" ++ itm) 64)])) ++
    [make_cancel_btn "inv"]

/-- All callback_data tokens of a keyboard. -/
def kb_tokens (kb : List (List Button)) : List String :=
  kb.flatten.map (·.callback_data)

/-- UTF-8 size in bytes of one code point. -/
def char_utf8_bytes (c : Char) : Nat :=
  if c.toNat < 128 then 1
  else if c.toNat < 2048 then 2
  else if c.toNat < 65536 then 3
  else 4

/-- len(s.encode("utf-8")): the wire size Telegram bounds at 64 bytes. -/
def utf8_bytes (s : String) : Nat :=
  (s.data.map char_utf8_bytes).sum

/-- Whether every code point of s is ASCII. -/
def ascii_only (s : String) : Bool :=
  s.data.all (fun c => c.toNat < 128)

/-! ## Concrete fixtures used by witnesses and counterexamples -/

def db0 : DB := ⟨[], []⟩

def clock0 : Clock :=
  { now_ts := "2025-07-05T10:00:00"
    today := "2025-07-05"
    utc_iso := 1751709600
    ym := "2025-07"
    ddhhmm := "051000" }

/-- A ledger row timestamped in the final second of its day
(23:59:59 of day 0, i.e. epoch second 86399). -/
def last_second_row : Transaction :=
  { chat_id := "42"
    item_name := "tea"
    quantity := 1
    price_per_unit := 20
    total_price_including_tax := 20
    tax_amount := 0
    tax_rate := 0
    raw_message := none
    payment_method := "cash"
    currency := "INR"
    inserted_at := 86399
    invoice_date := 86399
    invoice_number := "INV_A"
    customer_name := ""
    customer_details := "" }

def last_second_db : DB := ⟨[last_second_row], []⟩

/-- A wizard state in which chat 42 has pressed del_search and is awaiting
a free-text invoice number. -/
def searching_state : BotState := ⟨[42], last_second_db⟩

/-- A valid single-item request whose discounts list matches. -/
def one_item_req : InvReq :=
  { chat_id := 7
    item_names := ["tea"]
    quantities := [5]
    prices := [20]
    discounts := [0]
    date := 0
    raw_message := "Sold 5 tea at 20" }

/-- A request whose item_names and quantities lists differ in length. -/
def mismatched_req : InvReq :=
  { chat_id := 7
    item_names := ["tea", "sugar"]
    quantities := [1]
    prices := [20]
    discounts := []
    date := 0
    raw_message := "Sold tea and sugar" }

/-- A two-item request whose optional discounts list has only one entry. -/
def short_discounts_req : InvReq :=
  { chat_id := 7
    item_names := ["tea", "sugar"]
    quantities := [5, 2]
    prices := [20, 45]
    discounts := [0]
    date := 0
    raw_message := "Sold 5 tea at 20 and 2 sugar at 45" }

/-! ## Helper lemmas: sorted distinct lists -/

lemma mem_ins_sorted {α : Type} (le : α → α → Bool) (x a : α) :
    ∀ l : List α, a ∈ ins_sorted le x l ↔ a = x ∨ a ∈ l := by
  intro l
  induction l with
  | nil => simp [ins_sorted]
  | cons y ys ih =>
    simp only [ins_sorted]
    split
    · simp [List.mem_cons]
    · simp only [List.mem_cons, ih]
      tauto

lemma mem_sort_by {α : Type} (le : α → α → Bool) (a : α) :
    ∀ l : List α, a ∈ sort_by le l ↔ a ∈ l := by
  intro l
  induction l with
  | nil => simp [sort_by]
  | cons x xs ih =>
    show a ∈ ins_sorted le x (sort_by le xs) ↔ _
    rw [mem_ins_sorted]
    simp [ih, List.mem_cons]

lemma nodup_ins_sorted {α : Type} (le : α → α → Bool) (x : α) :
    ∀ l : List α, l.Nodup → x ∉ l → (ins_sorted le x l).Nodup := by
  intro l
  induction l with
  | nil => simp [ins_sorted]
  | cons y ys ih =>
    intro hnd hx
    rw [List.nodup_cons] at hnd
    simp only [ins_sorted]
    split
    · exact List.nodup_cons.mpr ⟨hx, List.nodup_cons.mpr hnd⟩
    · refine List.nodup_cons.mpr ⟨?_, ih hnd.2 (fun hmem => hx (List.mem_cons_of_mem _ hmem))⟩
      rw [mem_ins_sorted]
      rintro (rfl | hmem)
      · exact hx (List.mem_cons_self _ _)
      · exact hnd.1 hmem

lemma nodup_sort_by {α : Type} (le : α → α → Bool) :
    ∀ l : List α, l.Nodup → (sort_by le l).Nodup := by
  intro l
  induction l with
  | nil => intro _; simp [sort_by]
  | cons x xs ih =>
    intro hnd
    rw [List.nodup_cons] at hnd
    show (ins_sorted le x (sort_by le xs)).Nodup
    exact nodup_ins_sorted le x _ (ih hnd.2) (fun hmem => hnd.1 ((mem_sort_by le x xs).mp hmem))

lemma mem_py_sorted_set {α : Type} [DecidableEq α] (le : α → α → Bool) (a : α) (l : List α) :
    a ∈ py_sorted_set le l ↔ a ∈ l := by
  rw [py_sorted_set, mem_sort_by, List.mem_dedup]

lemma nodup_py_sorted_set {α : Type} [DecidableEq α] (le : α → α → Bool) (l : List α) :
    (py_sorted_set le l).Nodup :=
  nodup_sort_by le _ l.nodup_dedup

/-! ## C1: ledger rollup -/

/-- C1: the claim states that N successful `write_transaction` calls leave N
new rows and increment the account rollup by N and by the summed gross
totals.  The code inserts the rows but the rollup update
`update_user_data(chat_id, total_price)` (tools_util.py:312) references the
unbound name `total_price`, raises NameError into the enclosing `except`,
and returns None: after any sequence of calls the user table is completely
unchanged and every call reports failure. -/
theorem c1_rows_inserted_but_rollup_never_updated (clock : Clock) (db : DB)
    (ls : List WriteTxArgs) :
    (write_transaction_seq clock db ls).users = db.users ∧
    (write_transaction_seq clock db ls).transactions = db.transactions ++ ls.map (tx_row clock) ∧
    ∀ a : WriteTxArgs, (write_transaction db clock a).2 = none := by
  refine ⟨?_, ?_, fun a => rfl⟩ <;>
  · induction ls generalizing db with
    | nil => simp [write_transaction_seq]
    | cons a rest ih =>
      have h : write_transaction db clock a =
          ({ db with transactions := db.transactions ++ [tx_row clock a] }, none) := rfl
      simp [write_transaction_seq, h, ih]

/-! ## C4: length-mismatch validation -/

/-- C4: a request whose item_names and quantities lists differ in length is
rejected by validation (with one of the two validation replies of
app.py:633-637) before any ledger access: the store is returned untouched
and no write is attempted. -/
theorem c4_length_mismatch_writes_nothing (db : DB) (clock : Clock) (r : InvReq)
    (h : r.item_names.length ≠ r.quantities.length) :
    ((handle_invoice_request db clock r).reply = err_missing_fields ∨
     (handle_invoice_request db clock r).reply = err_unequal_length) ∧
    (handle_invoice_request db clock r).db = db ∧
    (handle_invoice_request db clock r).outcomes = [] := by
  unfold handle_invoice_request
  by_cases h1 : (r.item_names.isEmpty || r.quantities.isEmpty || r.prices.isEmpty) = true
  · rw [if_pos h1]
    exact ⟨Or.inl rfl, rfl, rfl⟩
  · rw [if_neg h1]
    have h2 : (r.item_names.length == r.quantities.length &&
        r.quantities.length == r.prices.length) = false := by
      have hne : (r.item_names.length == r.quantities.length) = false :=
        beq_eq_false_iff_ne.mpr h
      simp [hne]
    rw [if_neg (by simp [h2])]
    exact ⟨Or.inr rfl, rfl, rfl⟩

/-- Witness for C4 at a concrete mismatched request. -/
theorem c4_witness :
    mismatched_req.item_names.length ≠ mismatched_req.quantities.length ∧
    (((handle_invoice_request db0 clock0 mismatched_req).reply = err_missing_fields ∨
      (handle_invoice_request db0 clock0 mismatched_req).reply = err_unequal_length) ∧
     (handle_invoice_request db0 clock0 mismatched_req).db = db0 ∧
     (handle_invoice_request db0 clock0 mismatched_req).outcomes = []) :=
  ⟨by decide, c4_length_mismatch_writes_nothing db0 clock0 mismatched_req (by decide)⟩

/-! ## C5: day-range lookup -/

/-- C5 counterexample: a row timestamped in the final second of the day
(23:59:59, epoch 86399 for day 0) is inside the half-open day interval the
claim describes (`spec_invoice_numbers`), yet `get_invoice_numbers` does
not return it, because `day_range` ends at "23:59:59+00" and the query uses
a strict lt bound. -/
theorem c5_counterexample :
    spec_invoice_numbers last_second_db 42 0 = ["INV_A"] ∧
    get_invoice_numbers last_second_db 42 0 = [] ∧
    get_invoice_numbers last_second_db 42 0 ≠ spec_invoice_numbers last_second_db 42 0 := by
  decide

/-- C5 amended: `get_invoice_numbers` returns exactly the distinct invoice
numbers of the account rows whose invoice_date lies in
[D 00:00:00, D 23:59:59) under the fixed +00 offset — the final second of
the day is excluded. -/
theorem c5_lookup_covers_day_except_final_second (db : DB) (chat_id : Int) (day0 : Int) :
    (∀ inv, inv ∈ get_invoice_numbers db chat_id day0 ↔
      ∃ r ∈ db.transactions, r.chat_id = toString chat_id ∧ r.invoice_number = inv ∧
        day0 ≤ r.invoice_date ∧ r.invoice_date < day0 + 86399) ∧
    (get_invoice_numbers db chat_id day0).Nodup := by
  constructor
  · intro inv
    show inv ∈ py_sorted_set str_le _ ↔ _
    rw [mem_py_sorted_set]
    simp only [List.mem_map, List.mem_filter, Bool.and_eq_true, beq_iff_eq,
      decide_eq_true_eq, day_range]
    tauto
  · exact nodup_py_sorted_set _ _

/-! ## C6: short optional lists -/

/-- C6 counterexample: a two-item request with a one-entry discounts list
produces an invoice with a single line item (zip truncation) and writes no
ledger row — not the two line items the claim requires. -/
theorem c6_counterexample :
    short_discounts_req.item_names.length = 2 ∧
    (handle_invoice_request db0 clock0 short_discounts_req).lines.length = 1 ∧
    (handle_invoice_request db0 clock0 short_discounts_req).db.transactions.length = 0 ∧
    ¬ ((handle_invoice_request db0 clock0 short_discounts_req).lines.length =
        short_discounts_req.item_names.length) := by
  decide

/-- C6 amended: the item construction zips the four parallel lists and
silently truncates to the shortest; a short discounts list shrinks the
invoice instead of being zero-padded. -/
theorem c6_zip_truncates_to_shortest (ns : List String) (qs : List Int) (ps ds : List Rat) :
    (build_items ns qs ps ds).length =
      ((ns.length.min qs.length).min ps.length).min ds.length := by
  induction ns generalizing qs ps ds with
  | nil => simp [build_items]
  | cons n ns ih =>
    cases qs with
    | nil => simp [build_items]
    | cons q qs =>
      cases ps with
      | nil => simp [build_items]
      | cons p ps =>
        cases ds with
        | nil => simp [build_items]
        | cons d ds => simp [build_items, ih, Nat.succ_min_succ]

/-! ## C7: wizard cancellation -/

/-- C7 counterexample: with chat 42 pending a free-text invoice search,
processing del_cancel leaves the PENDING_SEARCH flag set (and the ledger
unchanged) — the session is not cleared as the claim states. -/
theorem c7_counterexample :
    searching_state.pending_search = [42] ∧
    (handle_delete_callback (fun _ => 0) searching_state 42 "del_cancel|root").1.pending_search
      = [42] ∧
    (handle_delete_callback (fun _ => 0) searching_state 42 "del_cancel|root").1.db
      = searching_state.db := by
  decide

/-- C7 amended: a del_cancel token of any level leaves the whole state —
ledger rows and the pending-search flag — unchanged and only edits the
message to the cancellation text; in particular it does not clear
PENDING_SEARCH (only the plain-text /cancel path does). -/
theorem c7_cancel_edits_message_only (iso_to_day : String → Int) (st : BotState)
    (chat_id : Int) (parts : List String) :
    wizard_step iso_to_day st chat_id ("del_cancel" :: parts) =
      (st, "❌ Delete operation cancelled.") := rfl

/-! ## Helper lemmas: reply classification -/

lemma head_char_success (s : String) : (success_reply s).data.head? = some '✅' := rfl

lemma success_reply_ne_err_internal (s : String) : success_reply s ≠ err_internal := by
  intro h
  have h2 : (success_reply s).data.head? = err_internal.data.head? := by rw [h]
  rw [head_char_success s] at h2
  exact absurd h2 (by decide)

lemma validate_items_err_head :
    ∀ (l : List (String × Int × Rat)) (i : Nat) (msg : String),
      validate_items i l = some msg → msg.data.head? = some '❌' := by
  intro l
  induction l with
  | nil =>
    intro i msg h
    simp [validate_items] at h
  | cons x rest ih =>
    intro i msg h
    obtain ⟨name, qty, price⟩ := x
    simp only [validate_items] at h
    split at h
    · obtain rfl := Option.some.inj h
      rfl
    · split at h
      · obtain rfl := Option.some.inj h
        rfl
      · split at h
        · obtain rfl := Option.some.inj h
          rfl
        · exact ih (i + 1) msg h

/-! ## C2: failed ledger writes and the success reply -/

/-- C2: whenever some completed `write_transaction` call of the invoice
loop failed (its outcome is false), the reported reply is the generic
internal error, never the success message.  (On this code the loop call
itself raises TypeError — `discount_per_unit` is not a parameter of
`write_transaction`, see `invoice_write_call_binds` — so a non-empty item
list always takes the error path, and the success reply is only reachable
with zero attempted writes.) -/
theorem c2_failed_write_never_reported_success (db : DB) (clock : Clock) (r : InvReq)
    (h : false ∈ (handle_invoice_request db clock r).outcomes) :
    (handle_invoice_request db clock r).reply = err_internal ∧
    ∀ s, (handle_invoice_request db clock r).reply ≠ success_reply s := by
  by_cases h1 : (r.item_names.isEmpty || r.quantities.isEmpty || r.prices.isEmpty) = true
  · simp [handle_invoice_request, h1] at h
  · by_cases h2 : (r.item_names.length == r.quantities.length &&
        r.quantities.length == r.prices.length) = true
    · cases hv : validate_items 0 (r.item_names.zip (r.quantities.zip r.prices)) with
      | some msg => simp [handle_invoice_request, h1, h2, hv] at h
      | none =>
        by_cases h3 : (build_items r.item_names r.quantities r.prices r.discounts).isEmpty = true
        · simp [handle_invoice_request, h1, h2, hv, h3] at h
        · have hb : invoice_write_call_binds = false := rfl
          have hr : (handle_invoice_request db clock r).reply = err_internal := by
            simp only [handle_invoice_request, h1, h2, hv, h3, hb, Bool.false_eq_true,
              if_false, if_true]
          refine ⟨hr, fun s hs => success_reply_ne_err_internal s ?_⟩
          rw [hr] at hs
          exact hs.symm
    · simp [handle_invoice_request, h1, h2] at h

/-- Witness for C2: a valid one-item request; its single attempted ledger
write fails (the loop call raises), and the reply is the internal error. -/
theorem c2_witness :
    false ∈ (handle_invoice_request db0 clock0 one_item_req).outcomes ∧
    ((handle_invoice_request db0 clock0 one_item_req).reply = err_internal ∧
     ∀ s, (handle_invoice_request db0 clock0 one_item_req).reply ≠ success_reply s) :=
  ⟨by decide, c2_failed_write_never_reported_success db0 clock0 one_item_req (by decide)⟩

/-! ## C10: totality of the tool reply -/

/-- C10: `handle_invoice_request` always produces a reply string: either
the ✅ success message (with the invoice number) or a ❌-prefixed error
message; every validation failure and the internal-error path are mapped
to ❌ replies and no exception escapes (the whole body runs inside
try/except Exception). -/
theorem c10_reply_success_or_error (db : DB) (clock : Clock) (r : InvReq) :
    ((handle_invoice_request db clock r).reply.data.head? = some '✅' ∧
      ∃ inv, (handle_invoice_request db clock r).reply = success_reply inv) ∨
    (handle_invoice_request db clock r).reply.data.head? = some '❌' := by
  by_cases h1 : (r.item_names.isEmpty || r.quantities.isEmpty || r.prices.isEmpty) = true
  · right
    simp [handle_invoice_request, h1]
    decide
  · by_cases h2 : (r.item_names.length == r.quantities.length &&
        r.quantities.length == r.prices.length) = true
    · cases hv : validate_items 0 (r.item_names.zip (r.quantities.zip r.prices)) with
      | some msg =>
        right
        simp only [handle_invoice_request, h1, h2, hv, Bool.false_eq_true, if_false, if_true]
        exact validate_items_err_head _ 0 msg hv
      | none =>
        by_cases h3 : (build_items r.item_names r.quantities r.prices r.discounts).isEmpty = true
        · left
          simp only [handle_invoice_request, h1, h2, hv, h3, Bool.false_eq_true,
            if_false, if_true]
          exact ⟨head_char_success _, _, rfl⟩
        · have hb : invoice_write_call_binds = false := rfl
          right
          simp only [handle_invoice_request, h1, h2, hv, h3, hb, Bool.false_eq_true,
            if_false, if_true]
          decide
    · right
      simp [handle_invoice_request, h1, h2]
      decide

/-! ## C3: GST decomposition identities -/

/-- C3: for positive GST-inclusive rate and quantity and non-negative tax
percentages, the per-line computation of the invoice generator recovers the
inclusive rate (base_rate * tax_factor = R, exactly, over exact rational
arithmetic) and splits the gross total without loss
(cgst + sgst + igst + base_total = gross_total). -/
theorem c3_tax_decomposition (name : String) (d R : Rat) (q : Int)
    (cgst_rate sgst_rate igst_rate : Rat)
    (hR : 0 < R) (hq : 0 < q)
    (hc : 0 ≤ cgst_rate) (hs : 0 ≤ sgst_rate) (hi : 0 ≤ igst_rate) :
    (line_calc cgst_rate sgst_rate igst_rate ⟨name, q, R, d⟩).base_rate *
        tax_factor cgst_rate sgst_rate igst_rate = R ∧
    (line_calc cgst_rate sgst_rate igst_rate ⟨name, q, R, d⟩).cgst_amt +
      (line_calc cgst_rate sgst_rate igst_rate ⟨name, q, R, d⟩).sgst_amt +
      (line_calc cgst_rate sgst_rate igst_rate ⟨name, q, R, d⟩).igst_amt +
      (line_calc cgst_rate sgst_rate igst_rate ⟨name, q, R, d⟩).base_total =
      (line_calc cgst_rate sgst_rate igst_rate ⟨name, q, R, d⟩).gross_total := by
  have hsum : (0:Rat) ≤ (cgst_rate + sgst_rate + igst_rate) / 100 := by
    apply div_nonneg
    · linarith
    · norm_num
  have htf : (0:Rat) < tax_factor cgst_rate sgst_rate igst_rate := by
    rw [tax_factor]
    linarith
  have hne : tax_factor cgst_rate sgst_rate igst_rate ≠ 0 := ne_of_gt htf
  constructor
  · simp only [line_calc]
    exact div_mul_cancel₀ R hne
  · simp only [line_calc, tax_factor]
    rw [tax_factor] at hne
    field_simp
    ring

/-- Witness for C3 at the worked example of the specification
(rate 20, quantity 5, CGST = SGST = 9, IGST = 0). -/
theorem c3_witness :
    (0:Rat) < 20 ∧ (0:Int) < 5 ∧
    ((line_calc 9 9 0 ⟨"tea", 5, 20, 0⟩).base_rate * tax_factor 9 9 0 = 20 ∧
     (line_calc 9 9 0 ⟨"tea", 5, 20, 0⟩).cgst_amt +
       (line_calc 9 9 0 ⟨"tea", 5, 20, 0⟩).sgst_amt +
       (line_calc 9 9 0 ⟨"tea", 5, 20, 0⟩).igst_amt +
       (line_calc 9 9 0 ⟨"tea", 5, 20, 0⟩).base_total =
       (line_calc 9 9 0 ⟨"tea", 5, 20, 0⟩).gross_total) :=
  ⟨by norm_num, by norm_num,
   c3_tax_decomposition "tea" 0 20 5 9 9 0 (by norm_num) (by norm_num)
     (by norm_num) (by norm_num) (by norm_num)⟩

/-! ## C8: sliding-window rate limiter -/

/-- Running checks whose timestamps all lie within the window of a common
later instant: every check is admitted and the timestamps accumulate. -/
lemma rl_run_admits_all (mc : Nat) (tw : Rat) (cid : Int) (tnext : Rat) :
    ∀ (ts prev : List Rat) (st : RLState),
      st cid = prev →
      prev.length + ts.length ≤ mc →
      (∀ t ∈ ts, t ≤ tnext) →
      (∀ u ∈ prev, tnext - u < tw) →
      (∀ u ∈ ts, tnext - u < tw) →
      (rl_run mc tw cid st ts).2 = List.replicate ts.length true ∧
      (rl_run mc tw cid st ts).1 cid = prev ++ ts := by
  intro ts
  induction ts with
  | nil =>
    intro prev st hst _ _ _ _
    simp [rl_run, hst]
  | cons t ts ih =>
    intro prev st hst hlen hle hprev hts
    have hkeep : (st cid).filter (fun u => decide (t - u < tw)) = prev := by
      rw [hst]
      apply List.filter_eq_self.mpr
      intro u hu
      have h1 : tnext - u < tw := hprev u hu
      have h2 : t ≤ tnext := hle t (List.mem_cons_self _ _)
      simp only [decide_eq_true_eq]
      linarith
    have hlt : prev.length < mc := by
      simp only [List.length_cons] at hlen
      omega
    have hcheck : rate_limiter_check mc tw st (some cid) t =
        ((fun j => if j = cid then prev ++ [t] else st j), true) := by
      simp only [rate_limiter_check, hkeep]
      rw [if_neg (by omega)]
    have hst1 : (fun j => if j = cid then prev ++ [t] else st j) cid = prev ++ [t] := by
      simp
    have hlen1 : (prev ++ [t]).length + ts.length ≤ mc := by
      simp only [List.length_append, List.length_singleton]
      simp only [List.length_cons] at hlen
      omega
    have hle1 : ∀ u ∈ ts, u ≤ tnext := fun u hu => hle u (List.mem_cons_of_mem _ hu)
    have hprev1 : ∀ u ∈ prev ++ [t], tnext - u < tw := by
      intro u hu
      rcases List.mem_append.mp hu with h | h
      · exact hprev u h
      · rw [List.mem_singleton] at h
        subst h
        exact hts _ (List.mem_cons_self _ _)
    have hts1 : ∀ u ∈ ts, tnext - u < tw := fun u hu => hts u (List.mem_cons_of_mem _ hu)
    obtain ⟨ihb, ihs⟩ := ih (prev ++ [t]) (fun j => if j = cid then prev ++ [t] else st j)
      hst1 hlen1 hle1 hprev1 hts1
    constructor
    · simp only [rl_run, hcheck, ihb, List.length_cons, List.replicate_succ]
    · simp only [rl_run, hcheck, ihs]
      simp

/-- C8: starting from an empty window, max_calls admission checks that all
lie inside the trailing window of the next instant are all admitted; the
next check at that instant is rejected; and a later check, made once every
recorded admission has aged beyond the window, is admitted again. -/
theorem c8_sliding_window (mc : Nat) (tw : Rat) (cid : Int) (ts : List Rat)
    (tnext tresume : Rat)
    (hmc : ts.length = mc) (hpos : 0 < mc)
    (hle : ∀ t ∈ ts, t ≤ tnext)
    (hwin : ∀ t ∈ ts, tnext - t < tw)
    (hgap : ∀ t ∈ ts, tw ≤ tresume - t) :
    (rl_run mc tw cid (fun _ => []) ts).2 = List.replicate mc true ∧
    (rate_limiter_check mc tw (rl_run mc tw cid (fun _ => []) ts).1 (some cid) tnext).2
      = false ∧
    (rate_limiter_check mc tw
      (rate_limiter_check mc tw (rl_run mc tw cid (fun _ => []) ts).1 (some cid) tnext).1
      (some cid) tresume).2 = true := by
  obtain ⟨hb, hs⟩ := rl_run_admits_all mc tw cid tnext ts [] (fun _ => []) rfl
    (by simp [hmc]) hle (by simp) hwin
  rw [List.nil_append] at hs
  have hkeep : ((rl_run mc tw cid (fun _ => []) ts).1 cid).filter
      (fun u => decide (tnext - u < tw)) = ts := by
    rw [hs]
    apply List.filter_eq_self.mpr
    intro u hu
    simpa using hwin u hu
  have hrej2 : (rate_limiter_check mc tw (rl_run mc tw cid (fun _ => []) ts).1
      (some cid) tnext).2 = false := by
    simp only [rate_limiter_check, hkeep]
    rw [if_pos (by omega)]
  have hrejst : (rate_limiter_check mc tw (rl_run mc tw cid (fun _ => []) ts).1
      (some cid) tnext).1 cid = ts := by
    simp only [rate_limiter_check, hkeep]
    rw [if_pos (by omega)]
    simp
  have hkeep2 : (ts.filter (fun u => decide (tresume - u < tw))) = [] := by
    apply List.filter_eq_nil_iff.mpr
    intro u hu
    have := hgap u hu
    simp only [decide_eq_true_eq]
    intro hlt
    linarith
  refine ⟨by rw [hb, hmc], hrej2, ?_⟩
  generalize hG : (rate_limiter_check mc tw (rl_run mc tw cid (fun _ => []) ts).1
    (some cid) tnext).1 = st2 at hrejst ⊢
  simp only [rate_limiter_check, hrejst, hkeep2]
  rw [if_neg (by simp only [List.length_nil]; omega)]

/-- Witness for C8: max_calls = 2, window = 60 s, admissions at t = 0 and
t = 1, a rejected third check at t = 2, and a re-admitted check at
t = 100. -/
theorem c8_witness :
    ([(0:Rat), 1].length = 2 ∧ 0 < 2) ∧
    ((rl_run 2 60 7 (fun _ => []) [0, 1]).2 = List.replicate 2 true ∧
     (rate_limiter_check 2 60 (rl_run 2 60 7 (fun _ => []) [0, 1]).1 (some 7) 2).2 = false ∧
     (rate_limiter_check 2 60
       (rate_limiter_check 2 60 (rl_run 2 60 7 (fun _ => []) [0, 1]).1 (some 7) 2).1
       (some 7) 100).2 = true) :=
  ⟨⟨rfl, by norm_num⟩,
   c8_sliding_window 2 60 7 [0, 1] 2 100 rfl (by norm_num)
     (by norm_num [List.forall_mem_cons])
     (by norm_num [List.forall_mem_cons])
     (by norm_num [List.forall_mem_cons])⟩

/-! ## C9: callback token bounds -/

lemma utf8_bytes_append (a b : String) : utf8_bytes (a ++ b) = utf8_bytes a + utf8_bytes b := by
  have h : (a ++ b).data = a.data ++ b.data := rfl
  rw [utf8_bytes, h, List.map_append, List.sum_append]
  rfl

lemma ascii_only_append (a b : String) (ha : ascii_only a = true) (hb : ascii_only b = true) :
    ascii_only (a ++ b) = true := by
  have h : (a ++ b).data = a.data ++ b.data := rfl
  rw [ascii_only] at ha hb ⊢
  rw [h, List.all_append, ha, hb]
  rfl

lemma ascii_utf8_bytes_eq_length (s : String) (h : ascii_only s = true) :
    utf8_bytes s = s.length := by
  suffices hl : ∀ l : List Char, l.all (fun c => c.toNat < 128) = true →
      (l.map char_utf8_bytes).sum = l.length by
    exact hl s.data (by simpa [ascii_only] using h)
  intro l hl
  induction l with
  | nil => rfl
  | cons c cs ih =>
    simp only [List.all_cons, Bool.and_eq_true, decide_eq_true_eq] at hl
    simp only [List.map_cons, List.sum_cons, List.length_cons, ih hl.2]
    rw [char_utf8_bytes, if_pos hl.1]
    omega

lemma ascii_only_pyslice (s : String) (n : Nat) (h : ascii_only s = true) :
    ascii_only (pyslice s n) = true := by
  simp only [ascii_only, pyslice] at *
  rw [List.all_eq_true] at *
  intro c hc
  exact h c (List.take_subset n _ hc)

lemma pyslice_length (s : String) (n : Nat) : (pyslice s n).length = min n s.length := by
  show (s.data.take n).length = _
  rw [List.length_take]
  rfl

/-- Tokens of a keyboard built as singleton rows plus a cancel row. -/
lemma kb_tokens_map_singleton (f : String → Button) (l : List String) (cancel : Button) :
    kb_tokens ((l.map (fun s => [f s])) ++ [[cancel]]) =
      l.map (fun s => (f s).callback_data) ++ [cancel.callback_data] := by
  induction l with
  | nil => rfl
  | cons x xs ih =>
    have hx : kb_tokens (([f x] :: (xs.map (fun s => [f s]) ++ [[cancel]]))) =
        (f x).callback_data :: kb_tokens (xs.map (fun s => [f s]) ++ [[cancel]]) := rfl
    simp only [List.map_cons, List.cons_append, hx, ih]

/-- C9 counterexample: a 60-character invoice number makes `kb_for_invoices`
emit a del_inv token of 79 bytes — the builders do not enforce the 64-byte
bound for every input list. -/
theorem c9_counterexample :
    ¬ (∀ tok ∈ kb_tokens (kb_for_invoices [String.mk (List.replicate 60 'X')] "2025-07-05"),
        ascii_only tok = true ∧ utf8_bytes tok ≤ 64) := by
  decide

/-- C9 amended: the builders emit pipe-delimited tokens whose 64-byte/ASCII
bound holds only under size assumptions on the embedded values: del_item
tokens are sliced to 64 code points (hence ≤ 64 bytes only for ASCII
input), del_date tokens need the date string ≤ 55 characters, and del_inv
tokens need the invoice number ≤ 45 characters; cancel tokens are fixed
and short. -/
theorem c9_token_bounds (dates inv_numbers items : List String) (date_iso inv : String)
    (hdates : ∀ d ∈ dates, ascii_only d = true ∧ d.length ≤ 55)
    (hinvs : ∀ v ∈ inv_numbers, ascii_only v = true ∧ v.length ≤ 45)
    (hdi : ascii_only date_iso = true)
    (hitems : ∀ s ∈ items, ascii_only s = true)
    (hinv : ascii_only inv = true) :
    (∀ tok ∈ kb_tokens (kb_for_dates dates), ascii_only tok = true ∧ utf8_bytes tok ≤ 64) ∧
    (∀ tok ∈ kb_tokens (kb_for_invoices inv_numbers date_iso),
      ascii_only tok = true ∧ utf8_bytes tok ≤ 64) ∧
    (∀ tok ∈ kb_tokens (kb_for_items items inv),
      ascii_only tok = true ∧ utf8_bytes tok ≤ 64) := by
  refine ⟨?_, ?_, ?_⟩
  · intro tok htok
    rw [kb_for_dates, make_cancel_btn, kb_tokens_map_singleton] at htok
    rcases List.mem_append.mp htok with h | h
    · obtain ⟨d, hd, rfl⟩ := List.mem_map.mp h
      obtain ⟨hda, hdl⟩ := hdates d hd
      constructor
      · exact ascii_only_append _ _ (by decide) hda
      · rw [utf8_bytes_append, ascii_utf8_bytes_eq_length d hda]
        have h9 : utf8_bytes "del_date|" = 9 := by decide
        omega
    · rw [List.mem_singleton] at h
      subst h
      exact ⟨by decide, by decide⟩
  · intro tok htok
    rw [kb_for_invoices, make_cancel_btn, kb_tokens_map_singleton] at htok
    rcases List.mem_append.mp htok with h | h
    · obtain ⟨v, hv, rfl⟩ := List.mem_map.mp h
      obtain ⟨hva, hvl⟩ := hinvs v hv
      have hsa : ascii_only (pyslice date_iso 10) = true := ascii_only_pyslice _ _ hdi
      constructor
      · exact ascii_only_append _ _
          (ascii_only_append _ _ (ascii_only_append _ _ (by decide) hsa) (by decide)) hva
      · rw [utf8_bytes_append, utf8_bytes_append, utf8_bytes_append,
          ascii_utf8_bytes_eq_length _ hsa, ascii_utf8_bytes_eq_length v hva,
          pyslice_length]
        have h8 : utf8_bytes "del_inv|" = 8 := by decide
        have h1 : utf8_bytes "|" = 1 := by decide
        have hm : min 10 date_iso.length ≤ 10 := Nat.min_le_left _ _
        omega
    · rw [List.mem_singleton] at h
      subst h
      exact ⟨by decide, by decide⟩
  · intro tok htok
    rw [kb_for_items, make_cancel_btn, kb_tokens_map_singleton] at htok
    rcases List.mem_append.mp htok with h | h
    · obtain ⟨s, hsm, rfl⟩ := List.mem_map.mp h
      have hca : ascii_only ("del_item|" ++ inv ++ "|" ++ s) = true :=
        ascii_only_append _ _
          (ascii_only_append _ _ (ascii_only_append _ _ (by decide) hinv) (by decide))
          (hitems s hsm)
      constructor
      · exact ascii_only_pyslice _ _ hca
      · rw [ascii_utf8_bytes_eq_length _ (ascii_only_pyslice _ _ hca), pyslice_length]
        exact le_trans (Nat.min_le_left _ _) (by omega)
    · rw [List.mem_singleton] at h
      subst h
      exact ⟨by decide, by decide⟩

/-- Witness for C9 at realistic short ASCII values. -/
theorem c9_witness :
    ((∀ d ∈ ["2025-07-05T00:00:00+00:00"], ascii_only d = true ∧ d.length ≤ 55) ∧
     (∀ v ∈ ["INV_7/2025-07/051000"], ascii_only v = true ∧ v.length ≤ 45) ∧
     ascii_only "2025-07-05T00:00:00+00:00" = true ∧
     (∀ s ∈ ["tea"], ascii_only s = true) ∧
     ascii_only "INV_7/2025-07/051000" = true) ∧
    ((∀ tok ∈ kb_tokens (kb_for_dates ["2025-07-05T00:00:00+00:00"]),
        ascii_only tok = true ∧ utf8_bytes tok ≤ 64) ∧
     (∀ tok ∈ kb_tokens (kb_for_invoices ["INV_7/2025-07/051000"] "2025-07-05T00:00:00+00:00"),
        ascii_only tok = true ∧ utf8_bytes tok ≤ 64) ∧
     (∀ tok ∈ kb_tokens (kb_for_items ["tea"] "INV_7/2025-07/051000"),
        ascii_only tok = true ∧ utf8_bytes tok ≤ 64)) :=
  ⟨⟨by decide, by decide, by decide, by decide, by decide⟩,
   c9_token_bounds ["2025-07-05T00:00:00+00:00"] ["INV_7/2025-07/051000"] ["tea"]
     "2025-07-05T00:00:00+00:00" "INV_7/2025-07/051000"
     (by decide) (by decide) (by decide) (by decide) (by decide)⟩

end Vyapari
